import Mathlib

/-!
Shallow embedding of the FastAPI gateway in src/app.py (Hourglass API Proxy).

Inbound request bodies are JSON dicts; the upstream service is modelled as an
oracle giving either an HTTP response (status plus a body that either parses
as JSON or does not) or a transport-level failure (httpx.RequestError).  Each
route handler is translated as a total function from its inputs and the
upstream oracle to the final HTTP result together with the upstream call it
made, if any.  The Python try/except control flow is modelled explicitly,
including the fact that a fastapi.HTTPException raised inside a try block is
an Exception and is therefore caught by a route-level catch-all
`except Exception` clause of that same block.
-/

namespace App

/-- JSON values, as produced by parsing a request or response body. -/
inductive Json where
  | null : Json
  | bool : Bool → Json
  | num : Int → Json
  | str : String → Json
  | arr : List Json → Json
  | obj : List (String × Json) → Json


/-- Python truthiness of a JSON value: None, False, 0, empty string, empty
list and empty dict are falsy, everything else is truthy. -/
def Json.truthy : Json → Bool
  | .null => false
  | .bool b => b
  | .num n => n != 0
  | .str s => !(s == "")
  | .arr xs => !xs.isEmpty
  | .obj kvs => !kvs.isEmpty

mutual
/-- Rendering of a JSON value to text (used only for response.text on bodies
that did parse as JSON, a branch no claim exercises). -/
def Json.render : Json → String
  | .null => "null"
  | .bool true => "true"
  | .bool false => "false"
  | .num n => toString n
  | .str s => s
  | .arr xs => "[" ++ Json.renderList xs ++ "]"
  | .obj kvs => "\x7b" ++ Json.renderKVList kvs ++ "\x7d"
def Json.renderList : List Json → String
  | [] => ""
  | [x] => Json.render x
  | x :: xs => Json.render x ++ ", " ++ Json.renderList xs
def Json.renderKVList : List (String × Json) → String
  | [] => ""
  | [(k, v)] => k ++ ": " ++ Json.render v
  | (k, v) :: kvs => k ++ ": " ++ Json.render v ++ ", " ++ Json.renderKVList kvs
end

/-- Python exceptions that arise in the handlers.  fastapi.HTTPException,
httpx.HTTPStatusError, httpx.RequestError and the builtin errors raised by
int(), subscripting and attribute access.  json.JSONDecodeError is kept as
its own constructor because it subclasses ValueError, which matters for the
`except ValueError` clause in update_schedule_status. -/
inductive Exc where
  | httpExc (status : Nat) (detail : Json)
  | httpStatusError (status : Nat) (bodyJson : Option Json) (bodyText : String)
  | requestError (msg : String)
  | valueError (msg : String)
  | typeError (msg : String)
  | attributeError (msg : String)
  | indexError (msg : String)
  | keyError (msg : String)
  | jsonDecodeError (msg : String)


/-- Result of running a Python block that may raise. -/
inductive TryResult (α : Type) where
  | ok (a : α)
  | exc (e : Exc)


/-- An upstream HTTP response body: either it parses as the JSON value j, or
it is raw non-JSON text t. -/
inductive UBody where
  | json (j : Json)
  | raw (t : String)


/-- The message carried by json.JSONDecodeError when a body fails to parse. -/
def jsonDecodeMsg : String := "Expecting value: line 1 column 1 (char 0)"

/-- response.json(): the parsed value, or json.JSONDecodeError. -/
def UBody.jsonOf : UBody → TryResult Json
  | .json j => .ok j
  | .raw _ => .exc (.jsonDecodeError jsonDecodeMsg)

/-- response.text: the raw body text. -/
def UBody.textOf : UBody → String
  | .json j => Json.render j
  | .raw t => t

/-- Behaviour of the upstream service for the single call a handler makes:
either it answers with a status and body, or the call fails at the transport
level with an httpx.RequestError carrying the given message. -/
inductive Upstream where
  | responds (status : Nat) (body : UBody)
  | transportError (msg : String)


/-- The outbound HTTP request a handler sends to the upstream service. -/
structure UpstreamCall where
  method : String
  path : String
  params : List (String × String)
  body : Option Json


/-- The gateway's final HTTP answer: a success return value (FastAPI serves
it with status 200) or an error response whose JSON body is the object
with a single field detail. -/
inductive GwResult where
  | success (status : Nat) (body : Json)
  | error (status : Nat) (detail : Json)


/-- The HTTP status code of a gateway result. -/
def GwResult.statusOf : GwResult → Nat
  | .success s _ => s
  | .error s _ => s

/-- The JSON payload of a gateway result (the returned value on success, the
detail on error). -/
def GwResult.bodyOf : GwResult → Json
  | .success _ b => b
  | .error _ d => d

/-- dict.get(k) on a request body dict: the stored value, or None (null) when
the key is absent.  Python keeps the first binding of a key; request dicts
have distinct keys. -/
def dictGet (kvs : List (String × Json)) (k : String) : Json :=
  (((kvs.find? (fun p => p.1 == k)).map Prod.snd).getD .null)

/-- dict.get(k, d) with an explicit default: the default is used only when
the key is absent, not when the stored value is None. -/
def dictGetD (kvs : List (String × Json)) (k : String) (d : Json) : Json :=
  (((kvs.find? (fun p => p.1 == k)).map Prod.snd).getD d)

/-- x.get(k) on an arbitrary JSON value: only dicts have a get attribute;
anything else raises AttributeError. -/
def pyObjGet (v : Json) (k : String) : TryResult Json :=
  match v with
  | .obj kvs => .ok (dictGet kvs k)
  | _ => .exc (.attributeError "object has no attribute get")

/-- x[0] on an arbitrary JSON value: first element of a list, first character
of a string; IndexError when empty, TypeError or KeyError otherwise. -/
def pySubZero : Json → TryResult Json
  | .arr (x :: _) => .ok x
  | .arr [] => .exc (.indexError "list index out of range")
  | .str s =>
    match s.data with
    | c :: _ => .ok (.str (String.mk [c]))
    | [] => .exc (.indexError "string index out of range")
  | .obj _ => .exc (.keyError "0")
  | _ => .exc (.typeError "object is not subscriptable")

/-- Digits of a Python integer literal after the first digit: ASCII digits
with single underscores allowed between digits (Python 3.6 syntax). -/
def parseDigitsCore : List Char → Nat → Option Nat
  | [], acc => some acc
  | '_' :: d :: cs, acc =>
    if d.isDigit then parseDigitsCore cs (acc * 10 + (d.toNat - 48)) else none
  | ['_'], _ => none
  | c :: cs, acc =>
    if c.isDigit then parseDigitsCore cs (acc * 10 + (c.toNat - 48)) else none

/-- A nonempty run of digits (with inner underscores), as required after the
optional sign of a Python integer literal. -/
def parseDigitsFirst : List Char → Option Nat
  | c :: cs => if c.isDigit then parseDigitsCore cs (c.toNat - 48) else none
  | [] => none

/-- Python int(s) on a string: optional surrounding whitespace, optional
sign, then a digit run.  (We model the ASCII digits; int() also accepts
other Unicode decimal digits, which no route receives.)  none means the call
raises ValueError. -/
def parsePyInt (s : String) : Option Int :=
  let cs := s.data.dropWhile Char.isWhitespace
  let cs := (cs.reverse.dropWhile Char.isWhitespace).reverse
  match cs with
  | '+' :: rest => (parseDigitsFirst rest).map Int.ofNat
  | '-' :: rest => (parseDigitsFirst rest).map (fun n => -(Int.ofNat n))
  | rest => (parseDigitsFirst rest).map Int.ofNat

/-- Python int(x) on a JSON value: ints pass through, bools coerce, strings
are parsed, None raises TypeError and unparsable strings raise ValueError. -/
def pyInt : Json → TryResult Int
  | .num n => .ok n
  | .bool b => .ok (if b then 1 else 0)
  | .str s =>
    match parsePyInt s with
    | some n => .ok n
    | none => .exc (.valueError ("invalid literal for int with base 10: " ++ s))
  | .null => .exc (.typeError "int argument must be a string or a number, not NoneType")
  | _ => .exc (.typeError "int argument must be a string or a number")

/-- Python str(x) on a JSON scalar (the containers fall back to the JSON
rendering; no route applies str to a container). -/
def pyStr : Json → String
  | .str s => s
  | .num n => toString n
  | .bool true => "True"
  | .bool false => "False"
  | .null => "None"
  | j => Json.render j

/-- str(e) for the modelled exceptions.  starlette HTTPException renders as
status colon detail; the builtin errors render as their message. -/
def strExc : Exc → String
  | .httpExc s d => toString s ++ ": " ++ pyStr d
  | .httpStatusError s _ _ => "upstream returned status " ++ toString s
  | .requestError m => m
  | .valueError m => m
  | .typeError m => m
  | .attributeError m => m
  | .indexError m => m
  | .keyError m => m
  | .jsonDecodeError m => m

/-- 2xx test used by response.raise_for_status(). -/
def is2xx (s : Nat) : Bool := decide (200 ≤ s ∧ s < 300)

/-- The shared upstream-call segment of every handler: send the request,
then response.raise_for_status() (httpx.HTTPStatusError on non-2xx,
httpx.RequestError on transport failure) and response.json(). -/
def doUpstream (call : UpstreamCall) (up : Upstream) :
    TryResult Json × Option UpstreamCall :=
  match up with
  | .transportError m => (.exc (.requestError m), some call)
  | .responds s b =>
    if is2xx s then
      match UBody.jsonOf b with
      | .ok j => (.ok j, some call)
      | .exc e => (.exc e, some call)
    else
      (.exc (.httpStatusError s (match b with | .json j => some j | .raw _ => none)
        (UBody.textOf b)), some call)

/-- The app-level handler registered with app.exception_handler(Exception):
an exception that escapes a route body unhandled becomes a 500 response with
detail Internal server error plus str(exc) (an escaping HTTPException keeps
its own status and detail). -/
def globalHandler (e : Exc) : GwResult :=
  match e with
  | .httpExc s d => .error s d
  | e => .error 500 (.str ("Internal server error: " ++ strExc e))

/-- The except chain of get_resources (src/app.py lines 113-131): an
httpx.HTTPStatusError is answered with the upstream status and the parsed
JSON body, falling back to the object with field detail holding the raw text
when the body is not JSON; an httpx.RequestError becomes 503 Service
unavailable; anything else becomes 500 Internal server error. -/
def get_resources_except (e : Exc) : GwResult :=
  match e with
  | .httpStatusError s bj bt =>
    match bj with
    | some j => .error s j
    | none => .error s (.obj [("detail", .str bt)])
  | .requestError m => .error 503 (.str ("Service unavailable: " ++ m))
  | e => .error 500 (.str ("Internal server error: " ++ strExc e))

/-- The except chain of create_schedule (src/app.py lines 184-195): an
httpx.HTTPStatusError is answered with the upstream status and
e.response.json() as detail; when that body is not JSON the json() call
raises inside the except block, escapes the route and reaches the app-level
Exception handler as a 500.  Every other exception, including the route's
own validation HTTPExceptions with status 400, is caught by the catch-all
`except Exception` clause and re-raised as a 500 Internal server error. -/
def create_schedule_except (e : Exc) : GwResult :=
  match e with
  | .httpStatusError s bj _ =>
    match bj with
    | some j => .error s j
    | none => globalHandler (.jsonDecodeError jsonDecodeMsg)
  | e => .error 500 (.str ("Internal server error: " ++ strExc e))

/-- The except chain of update_schedule_status (src/app.py lines 244-261):
like create_schedule, with an additional `except ValueError` clause (which
also catches json.JSONDecodeError from response.json() on a 2xx non-JSON
body) answering 400 Invalid schedule ID format.  The validation
HTTPExceptions raised in the try block, including the one produced by the
inner int() ValueError handler, fall through to the catch-all and become
500 Internal server error. -/
def update_schedule_status_except (e : Exc) : GwResult :=
  match e with
  | .httpStatusError s bj _ =>
    match bj with
    | some j => .error s j
    | none => globalHandler (.jsonDecodeError jsonDecodeMsg)
  | .valueError m => .error 400 (.str ("Invalid schedule ID format: " ++ m))
  | .jsonDecodeError m => .error 400 (.str ("Invalid schedule ID format: " ++ m))
  | e => .error 500 (.str ("Internal server error: " ++ strExc e))

/-- The except chain of get_schedules (src/app.py lines 289-297): an
httpx.HTTPStatusError is answered with the upstream status and parsed JSON
detail (escaping as a 500 when the body is not JSON); any other exception
becomes a 500 whose detail is str(e) with no added text. -/
def get_schedules_except (e : Exc) : GwResult :=
  match e with
  | .httpStatusError s bj _ =>
    match bj with
    | some j => .error s j
    | none => globalHandler (.jsonDecodeError jsonDecodeMsg)
  | e => .error 500 (.str (strExc e))

/-- The except chain of create_resource (src/app.py lines 352-363): the same
shape as create_schedule. -/
def create_resource_except (e : Exc) : GwResult :=
  match e with
  | .httpStatusError s bj _ =>
    match bj with
    | some j => .error s j
    | none => globalHandler (.jsonDecodeError jsonDecodeMsg)
  | e => .error 500 (.str ("Internal server error: " ++ strExc e))

/-- str(activeOnly).lower() on a Python bool. -/
def pyBoolLower (b : Bool) : String := if b then "true" else "false"

/-- The outbound query parameters built by get_resources (src/app.py lines
91-98): activeOnly whenever the handler argument is not None, serialized
lowercase; resourceType and serviceOffering only when truthy, so an empty
string is omitted exactly like an absent value. -/
def get_resources_params (activeOnly : Option Bool)
    (resourceType serviceOffering : Option String) : List (String × String) :=
  (match activeOnly with
   | some b => [("activeOnly", pyBoolLower b)]
   | none => []) ++
  (match resourceType with
   | some s => if s = "" then [] else [("resourceType", s)]
   | none => []) ++
  (match serviceOffering with
   | some s => if s = "" then [] else [("serviceOffering", s)]
   | none => [])

/-- Handler GET /api/resources (src/app.py lines 82-131).  The upstream call
is always attempted; the pair records it unconditionally. -/
def get_resources (activeOnly : Option Bool)
    (resourceType serviceOffering : Option String) (up : Upstream) :
    GwResult × Option UpstreamCall :=
  let call : UpstreamCall :=
    ⟨"GET", "/api/resources",
      get_resources_params activeOnly resourceType serviceOffering, none⟩
  let res : GwResult :=
    match doUpstream call up with
    | (.ok j, _) => .success 200 j
    | (.exc e, _) => get_resources_except e
  (res, some call)

/-- FastAPI route wrapper for GET /api/resources: the query parameter
activeOnly defaults to True when the client omits it, the two string
parameters default to None. -/
def get_resources_route (clientActiveOnly : Option Bool)
    (clientResourceType clientServiceOffering : Option String)
    (up : Upstream) : GwResult × Option UpstreamCall :=
  get_resources (some (clientActiveOnly.getD true))
    clientResourceType clientServiceOffering up

/-- The try block of create_schedule (src/app.py lines 138-182), in the
order of the source: truthiness check on resources, subscript [0], .get on
the first resource, int() coercion, falsiness check on the coerced id,
truthiness check on timeslot, then the stripped payload is forwarded. -/
def create_schedule_try (schedule_data : List (String × Json))
    (up : Upstream) : TryResult Json × Option UpstreamCall :=
  if !(dictGet schedule_data "resources").truthy then
    (.exc (.httpExc 400 (.str "Missing resources data")), none)
  else
    match pySubZero (dictGet schedule_data "resources") with
    | .exc e => (.exc e, none)
    | .ok resource_info =>
      match pyObjGet resource_info "id" with
      | .exc e => (.exc e, none)
      | .ok idv =>
        match pyInt idv with
        | .exc e => (.exc e, none)
        | .ok resource_id =>
          if resource_id == 0 then
            (.exc (.httpExc 400 (.str "Invalid resource ID")), none)
          else if !(dictGet schedule_data "timeslot").truthy then
            (.exc (.httpExc 400 (.str "Missing timeslot data")), none)
          else
            match pyObjGet (dictGet schedule_data "timeslot") "start" with
            | .exc e => (.exc e, none)
            | .ok tstart =>
              match pyObjGet (dictGet schedule_data "timeslot") "end" with
              | .exc e => (.exc e, none)
              | .ok tend =>
                let hourglass_data : Json := .obj
                  [("resources", .arr [.obj [("id", .num resource_id)]]),
                   ("timeslot", .obj [("start", tstart), ("end", tend)])]
                doUpstream ⟨"POST", "/api/schedules", [], some hourglass_data⟩ up

/-- Handler POST /api/schedules (src/app.py lines 133-195): the try block
followed by the route's except chain. -/
def create_schedule (schedule_data : List (String × Json)) (up : Upstream) :
    GwResult × Option UpstreamCall :=
  match create_schedule_try schedule_data up with
  | (.ok j, c) => (.success 200 j, c)
  | (.exc e, c) => (create_schedule_except e, c)

/-- Python schedule_id.replace with pattern event_ and empty replacement:
every non-overlapping occurrence is removed, scanning left to right. -/
def stripEventAll : List Char → List Char
  | 'e' :: 'v' :: 'e' :: 'n' :: 't' :: '_' :: rest => stripEventAll rest
  | c :: rest => c :: stripEventAll rest
  | [] => []

/-- The same on strings. -/
def pyReplaceEvent (s : String) : String := String.mk (stripEventAll s.data)

/-- The try block of update_schedule_status (src/app.py lines 202-242):
truthiness check on status, comparison against the literal CANCELLED,
removal of event_ from the path id, int() with the inner ValueError handler
turned into an HTTPException naming the raw id, then the forward. -/
def update_schedule_status_try (schedule_id : String)
    (status_data : List (String × Json)) (up : Upstream) :
    TryResult Json × Option UpstreamCall :=
  if !(dictGet status_data "status").truthy then
    (.exc (.httpExc 400 (.str "Missing status in request")), none)
  else if !(match dictGet status_data "status" with
            | .str s => s == "CANCELLED"
            | _ => false) then
    (.exc (.httpExc 400 (.str "Invalid status. Only CANCELLED is supported.")), none)
  else
    match parsePyInt (pyReplaceEvent schedule_id) with
    | none =>
      (.exc (.httpExc 400 (.str
        ("Invalid schedule ID format. Expected numeric ID, got: " ++ schedule_id))), none)
    | some numeric_id =>
      let hourglass_data : Json :=
        .obj [("id", .num numeric_id), ("status", .str "CANCELLED")]
      doUpstream
        ⟨"PUT", "/api/schedules/" ++ toString numeric_id ++ "/status",
          [], some hourglass_data⟩ up

/-- Handler PUT /api/schedules/schedule_id/status (src/app.py lines
197-261). -/
def update_schedule_status (schedule_id : String)
    (status_data : List (String × Json)) (up : Upstream) :
    GwResult × Option UpstreamCall :=
  match update_schedule_status_try schedule_id status_data up with
  | (.ok j, c) => (.success 200 j, c)
  | (.exc e, c) => (update_schedule_status_except e, c)

/-- Handler GET /api/schedules (src/app.py lines 264-297): both query
parameters are always forwarded, page rendered as its decimal string by the
httpx parameter encoding. -/
def get_schedules (page : Int) (sort : String) (up : Upstream) :
    GwResult × Option UpstreamCall :=
  let call : UpstreamCall :=
    ⟨"GET", "/api/schedules", [("page", toString page), ("sort", sort)], none⟩
  let res : GwResult :=
    match doUpstream call up with
    | (.ok j, _) => .success 200 j
    | (.exc e, _) => get_schedules_except e
  (res, some call)

/-- FastAPI route wrapper for GET /api/schedules with the declared defaults
page=1 and sort=id,asc. -/
def get_schedules_route (clientPage : Option Int) (clientSort : Option String)
    (up : Upstream) : GwResult × Option UpstreamCall :=
  get_schedules (clientPage.getD 1) (clientSort.getD "id,asc") up

/-- The try block of create_resource (src/app.py lines 322-350): truthiness
checks on name and description, then the payload with the fixed category
fields resourceType.id = 25 and serviceOffering.id = 8 and externalId
defaulted to the string 9 is forwarded. -/
def create_resource_try (resource_data : List (String × Json))
    (up : Upstream) : TryResult Json × Option UpstreamCall :=
  if !(dictGet resource_data "name").truthy then
    (.exc (.httpExc 400 (.str "Missing course name")), none)
  else if !(dictGet resource_data "description").truthy then
    (.exc (.httpExc 400 (.str "Missing course description")), none)
  else
    let hourglass_data : Json := .obj
      [("name", dictGet resource_data "name"),
       ("description", dictGet resource_data "description"),
       ("externalId", .str (pyStr (dictGetD resource_data "externalId" (.str "9")))),
       ("resourceType", .obj [("id", .num 25)]),
       ("serviceOffering", .obj [("id", .num 8)])]
    doUpstream ⟨"POST", "/api/resources", [], some hourglass_data⟩ up

/-- Handler POST /api/resources (src/app.py lines 317-363). -/
def create_resource (resource_data : List (String × Json)) (up : Upstream) :
    GwResult × Option UpstreamCall :=
  match create_resource_try resource_data up with
  | (.ok j, c) => (.success 200 j, c)
  | (.exc e, c) => (create_resource_except e, c)

/-- Modelled from the spec: the GET /api/check-connection route is not in
src/app.py (the spec notes several near-duplicate revisions of the gateway;
this route exists only outside the included source).  Per spec sections 4.1
and 6 it performs a no-parameter GET /api/resources upstream probe and, for
every probe outcome, returns HTTP 200 with a body of shape
status success-or-error, message, url, never raising. -/
def check_connection (up : Upstream) : GwResult × Option UpstreamCall :=
  let call : UpstreamCall := ⟨"GET", "/api/resources", [], none⟩
  let probeUrl : String := "https://hourglass-qa.shieldfoundry.com/api/resources"
  let body : Json :=
    match up with
    | .responds s _ =>
      if is2xx s then
        .obj [("status", .str "success"),
              ("message", .str "Successfully connected to the Hourglass API"),
              ("url", .str probeUrl)]
      else
        .obj [("status", .str "error"),
              ("message", .str ("Upstream returned status " ++ toString s)),
              ("url", .str probeUrl)]
    | .transportError m =>
      .obj [("status", .str "error"),
            ("message", .str ("Connection failed: " ++ m)),
            ("url", .str probeUrl)]
  (.success 200 body, some call)

/-- The five forwarding routes named by the error-translation claims. -/
inductive RouteKind where
  | listResources
  | createResource
  | createSchedule
  | updateStatus
  | listSchedules

/-- A canonical valid request body for POST /api/schedules. -/
def canonScheduleBody : List (String × Json) :=
  [("resources", .arr [.obj [("id", .num 7)]]),
   ("timeslot", .obj [("start", .str "2025-01-01T10:00:00"),
                      ("end", .str "2025-01-01T11:00:00")])]

/-- A canonical valid request body for POST /api/resources. -/
def canonResourceBody : List (String × Json) :=
  [("name", .str "Course A"), ("description", .str "A course")]

/-- A canonical valid request body for PUT status. -/
def canonStatusBody : List (String × Json) := [("status", .str "CANCELLED")]

/-- Each forwarding route run on a canonical valid request that reaches the
upstream call, against the given upstream behaviour. -/
def runCanonical : RouteKind → Upstream → GwResult × Option UpstreamCall
  | .listResources, up => get_resources_route none none none up
  | .createResource, up => create_resource canonResourceBody up
  | .createSchedule, up => create_schedule canonScheduleBody up
  | .updateStatus, up => update_schedule_status "42" canonStatusBody up
  | .listSchedules, up => get_schedules_route none none up

/-- An upstream that answers 200 with an empty JSON object, used to evaluate
the handlers at concrete inputs. -/
def upOk : Upstream := .responds 200 (.json (.obj []))

/-- C1.  The claim states that a POST /api/schedules body with missing or
empty resources, missing timeslot, or a first resource id that is absent or
not coercible to an integer yields HTTP 400.  The code raises those
HTTPExceptions with status 400 inside the try block of create_schedule,
whose catch-all `except Exception` clause catches them and re-raises a 500
Internal server error instead; the no-upstream-call half of the claim does
hold.  This theorem evaluates the handler at the failing inputs: empty body,
empty resources list, non-integer id abc, absent id, and missing timeslot
all answer 500 with no upstream call. -/
theorem C1_create_schedule_validation_returns_500 :
    ((create_schedule [] upOk).1.statusOf = 500 ∧
      (create_schedule [] upOk).2 = none) ∧
    ((create_schedule [("resources", .arr [])] upOk).1.statusOf = 500 ∧
      (create_schedule [("resources", .arr [])] upOk).2 = none) ∧
    ((create_schedule [("resources", .arr [.obj [("id", .str "abc")]]),
        ("timeslot", .obj [("start", .str "s"), ("end", .str "e")])]
        upOk).1.statusOf = 500 ∧
      (create_schedule [("resources", .arr [.obj [("id", .str "abc")]]),
        ("timeslot", .obj [("start", .str "s"), ("end", .str "e")])]
        upOk).2 = none) ∧
    ((create_schedule [("resources", .arr [.obj []]),
        ("timeslot", .obj [("start", .str "s"), ("end", .str "e")])]
        upOk).1.statusOf = 500 ∧
      (create_schedule [("resources", .arr [.obj []]),
        ("timeslot", .obj [("start", .str "s"), ("end", .str "e")])]
        upOk).2 = none) ∧
    ((create_schedule [("resources", .arr [.obj [("id", .num 7)]])]
        upOk).1.statusOf = 500 ∧
      (create_schedule [("resources", .arr [.obj [("id", .num 7)]])]
        upOk).2 = none) :=
  ⟨⟨rfl, rfl⟩, ⟨rfl, rfl⟩, ⟨rfl, rfl⟩, ⟨rfl, rfl⟩, ⟨rfl, rfl⟩⟩

/-- C2.  The claim states that a PUT status body whose status field is
missing or differs from the literal CANCELLED yields HTTP 400.  As in C1,
update_schedule_status raises those 400 HTTPExceptions inside its own try
block and the catch-all rewraps them as 500 Internal server error; no
upstream call is made.  Evaluated at status ACTIVE, an empty body, and a
non-string status. -/
theorem C2_update_status_validation_returns_500 :
    ((update_schedule_status "5" [("status", .str "ACTIVE")] upOk).1.statusOf = 500 ∧
      (update_schedule_status "5" [("status", .str "ACTIVE")] upOk).2 = none) ∧
    ((update_schedule_status "5" [] upOk).1.statusOf = 500 ∧
      (update_schedule_status "5" [] upOk).2 = none) ∧
    ((update_schedule_status "5" [("status", .num 1)] upOk).1.statusOf = 500 ∧
      (update_schedule_status "5" [("status", .num 1)] upOk).2 = none) :=
  ⟨⟨rfl, rfl⟩, ⟨rfl, rfl⟩, ⟨rfl, rfl⟩⟩

/-- C3.  The claim states that a POST /api/resources body with missing or
empty name or description yields HTTP 400.  create_resource raises those
400 HTTPExceptions inside its try block and the catch-all rewraps them as
500 Internal server error; no upstream call is made.  Evaluated at an empty
body, a body with only a name, a body with only a description, and a body
with an empty name. -/
theorem C3_create_resource_validation_returns_500 :
    ((create_resource [] upOk).1.statusOf = 500 ∧
      (create_resource [] upOk).2 = none) ∧
    ((create_resource [("name", .str "x")] upOk).1.statusOf = 500 ∧
      (create_resource [("name", .str "x")] upOk).2 = none) ∧
    ((create_resource [("description", .str "y")] upOk).1.statusOf = 500 ∧
      (create_resource [("description", .str "y")] upOk).2 = none) ∧
    ((create_resource [("name", .str ""), ("description", .str "y")] upOk).1.statusOf = 500 ∧
      (create_resource [("name", .str ""), ("description", .str "y")] upOk).2 = none) :=
  ⟨⟨rfl, rfl⟩, ⟨rfl, rfl⟩, ⟨rfl, rfl⟩, ⟨rfl, rfl⟩⟩

/-- C4.  The positive half of the claim holds: with a valid CANCELLED body,
schedule ids event_42 and 42 are both forwarded upstream as the numeric id
42 in the path and in the body.  The negative half fails as in C1: for the
id notanumber the code builds the 400 HTTPException whose message names the
raw id, but the catch-all rewraps it, so the response is 500 Internal
server error (its detail still contains the raw id); no upstream call is
made. -/
theorem C4_update_status_id_handling :
    (update_schedule_status "event_42" canonStatusBody upOk).2 =
      some ⟨"PUT", "/api/schedules/42/status", [],
        some (.obj [("id", .num 42), ("status", .str "CANCELLED")])⟩ ∧
    (update_schedule_status "42" canonStatusBody upOk).2 =
      some ⟨"PUT", "/api/schedules/42/status", [],
        some (.obj [("id", .num 42), ("status", .str "CANCELLED")])⟩ ∧
    (update_schedule_status "notanumber" canonStatusBody upOk).1 =
      .error 500 (.str
        "Internal server error: 400: Invalid schedule ID format. Expected numeric ID, got: notanumber") ∧
    (update_schedule_status "notanumber" canonStatusBody upOk).2 = none :=
  ⟨rfl, rfl, rfl, rfl⟩

/-- C5, counterexample.  The claim states that every forwarding route
answers a non-2xx upstream response with the upstream status code.  On
create_schedule, an upstream 404 whose body is not JSON makes the
e.response.json() call in the except block raise, and the gateway answers
500, not 404. -/
theorem C5_counterexample :
    (create_schedule canonScheduleBody (.responds 404 (.raw "oops"))).1.statusOf = 500 ∧
    (500 : Nat) ≠ 404 :=
  ⟨rfl, by decide⟩

/-- C5 as amended: when the upstream responds non-2xx with a JSON body,
every forwarding route answers with the upstream status and the parsed JSON
body as detail.  When the upstream body is not JSON, the list-resources
route answers with the upstream status and the object with field detail
holding the raw text, while the other four routes answer 500 because their
own error handler fails parsing the body. -/
theorem C5_amended_upstream_error_translation
    (r : RouteKind) (s : Nat) (b : UBody) (h : is2xx s = false) :
    ((runCanonical r (.responds s b)).2.isSome = true) ∧
    (runCanonical r (.responds s b)).1 =
      (match b with
       | .json j => GwResult.error s j
       | .raw t =>
         match r with
         | .listResources => GwResult.error s (.obj [("detail", .str t)])
         | _ => GwResult.error 500
             (.str ("Internal server error: " ++ jsonDecodeMsg))) := by
  cases r <;> cases b <;>
    simp [runCanonical, get_resources_route, get_resources, create_resource,
      create_resource_try, create_resource_except, create_schedule,
      create_schedule_try, create_schedule_except, update_schedule_status,
      update_schedule_status_try, update_schedule_status_except,
      get_schedules_route, get_schedules, get_schedules_except,
      get_resources_except, doUpstream, globalHandler, UBody.jsonOf,
      UBody.textOf, canonScheduleBody, canonResourceBody, canonStatusBody,
      dictGet, dictGetD, Json.truthy, pyObjGet, pyInt, pySubZero, parsePyInt,
      pyReplaceEvent, stripEventAll, parseDigitsFirst, parseDigitsCore,
      pyStr, strExc, pyBoolLower, get_resources_params, List.find?, h]

/-- C5 witness: the amended statement at the create-schedule route, upstream
status 404 and a non-JSON body. -/
theorem C5_amended_witness :
    ((runCanonical .createSchedule (.responds 404 (.raw "oops"))).2.isSome = true) ∧
    (runCanonical .createSchedule (.responds 404 (.raw "oops"))).1 =
      GwResult.error 500 (.str ("Internal server error: " ++ jsonDecodeMsg)) :=
  C5_amended_upstream_error_translation .createSchedule 404 (.raw "oops") rfl

/-- C6, counterexample.  The claim states that every forwarding route
answers a transport-level upstream failure with HTTP 503.  create_schedule
has no `except httpx.RequestError` clause, so the failure falls into its
catch-all and the gateway answers 500, not 503. -/
theorem C6_counterexample :
    (create_schedule canonScheduleBody (.transportError "Connection refused")).1 =
      .error 500 (.str "Internal server error: Connection refused") ∧
    (500 : Nat) ≠ 503 :=
  ⟨rfl, by decide⟩

/-- C6 as amended: only the list-resources route maps a transport-level
upstream failure to 503 with a detail naming service unavailability and the
underlying error; the other four forwarding routes answer 500 from their
generic exception handler (list-schedules with the bare error text as
detail, the rest with an Internal server error detail). -/
theorem C6_amended_transport_error_translation (r : RouteKind) (m : String) :
    ((runCanonical r (.transportError m)).2.isSome = true) ∧
    (runCanonical r (.transportError m)).1 =
      (match r with
       | .listResources => GwResult.error 503 (.str ("Service unavailable: " ++ m))
       | .listSchedules => GwResult.error 500 (.str m)
       | _ => GwResult.error 500 (.str ("Internal server error: " ++ m))) := by
  cases r <;> exact ⟨rfl, rfl⟩

/-- C7 (spec-modelled, the route is absent from src/app.py).  For every
outcome of its no-parameter GET /api/resources probe — 2xx, non-2xx or
transport failure — check-connection answers 200 with a body of shape
status, message, url, where status is the string success or error. -/
theorem C7_check_connection_always_200 (up : Upstream) :
    (check_connection up).1.statusOf = 200 ∧
    (check_connection up).2 = some ⟨"GET", "/api/resources", [], none⟩ ∧
    ∃ st msg url,
      (check_connection up).1.bodyOf =
        .obj [("status", .str st), ("message", .str msg), ("url", .str url)] ∧
      (st = "success" ∨ st = "error") := by
  cases up with
  | responds s b =>
    refine ⟨rfl, rfl, ?_⟩
    cases h : is2xx s with
    | false =>
      simp only [check_connection, h, GwResult.bodyOf]
      exact ⟨"error", _, _, rfl, Or.inr rfl⟩
    | true =>
      simp only [check_connection, h, GwResult.bodyOf]
      exact ⟨"success", _, _, rfl, Or.inl rfl⟩
  | transportError m =>
    exact ⟨rfl, rfl, "error", _, _, rfl, Or.inr rfl⟩

/-- C8.  For every inbound resource-list query whose string parameters are
either absent or genuinely non-empty (the empty-string edge is claim C10),
the outbound query contains exactly the present fields in source order,
with activeOnly serialized as the lowercase string true or false and
defaulting to true when the client omits it. -/
theorem C8_outbound_params_exact (ao : Option Bool) (rt so : Option String)
    (up : Upstream) (hrt : rt ≠ some "") (hso : so ≠ some "") :
    (get_resources_route ao rt so up).2 = some
      ⟨"GET", "/api/resources",
        ("activeOnly", if ao.getD true then "true" else "false") ::
          ((rt.map fun s => ("resourceType", s)).toList ++
           (so.map fun s => ("serviceOffering", s)).toList), none⟩ := by
  cases ao <;> cases rt <;> cases so <;>
    simp_all [get_resources_route, get_resources, get_resources_params,
      pyBoolLower]

/-- C8 witness: the theorem at activeOnly false, resourceType ROOM,
serviceOffering absent. -/
theorem C8_outbound_params_exact_witness :
    (get_resources_route (some false) (some "ROOM") none upOk).2 = some
      ⟨"GET", "/api/resources",
        [("activeOnly", "false"), ("resourceType", "ROOM")], none⟩ :=
  C8_outbound_params_exact (some false) (some "ROOM") none upOk
    (by decide) (by decide)

/-- C9.  Whenever the first resource of a POST /api/schedules body has an
id that int() coerces to 0 (for example the number 0 or the string 0), the
falsiness check `if not resource_id` fires and the request is rejected with
the Invalid resource ID error before any upstream call; the catch-all turns
the 400 into a 500, but the rejection and the absence of an upstream call
hold for every such body, timeslot and upstream. -/
theorem C9_zero_resource_id_rejected (ri : Json) (rest : List Json)
    (ts : Json) (idv : Json) (up : Upstream)
    (hid : pyObjGet ri "id" = .ok idv) (h0 : pyInt idv = .ok 0) :
    create_schedule [("resources", .arr (ri :: rest)), ("timeslot", ts)] up =
      (.error 500 (.str "Internal server error: 400: Invalid resource ID"), none) := by
  simp [create_schedule, create_schedule_try, dictGet, Json.truthy, pySubZero,
    hid, h0, create_schedule_except, strExc, pyStr]
  rfl

/-- C9 witness: the theorem at the string id 0 with a well-formed timeslot
and the 200 upstream. -/
theorem C9_zero_resource_id_rejected_witness :
    create_schedule [("resources", .arr [.obj [("id", .str "0")]]),
        ("timeslot", .obj [("start", .str "s"), ("end", .str "e")])] upOk =
      (.error 500 (.str "Internal server error: 400: Invalid resource ID"), none) :=
  C9_zero_resource_id_rejected (.obj [("id", .str "0")]) []
    (.obj [("start", .str "s"), ("end", .str "e")]) (.str "0") upOk rfl rfl

/-- C10.  Supplying resourceType or serviceOffering as the empty string
leaves the whole handler result — outbound parameters included — identical
to the result for an absent parameter, for every value of the other
parameters and every upstream behaviour. -/
theorem C10_empty_string_params_omitted (ao : Option Bool)
    (rt so : Option String) (up : Upstream) :
    get_resources_route ao (some "") so up = get_resources_route ao none so up ∧
    get_resources_route ao rt (some "") up = get_resources_route ao rt none up := by
  constructor <;> simp [get_resources_route, get_resources, get_resources_params]

end App
